import Mathlib

/-!
Shallow embedding of `src/taskmanager.py` (class `TaskManager`) from the
AI task-manager repository, together with proofs about its task-store
operations `add_task`, `list_tasks`, `complete_task` and `get_stats`.

Modelling conventions:
* A Python task record (a `dict` with keys `id`, `title`, `priority`,
  `completed`, `created_at`) is the structure `Task`.
* Durable storage (the JSON file `tasks.json`) is `Option (List Task)`:
  `none` models an absent file (`FileNotFoundError` on read), `some ts`
  models a file holding the serialized list `ts`.  JSON serialization of
  these flat records is lossless, so the file content is modelled by the
  task list itself.
* `datetime.now().isoformat()` is an arbitrary string parameter `now`,
  passed explicitly to the operations that read the clock.
* Python `float` arithmetic in `get_stats` is modelled by `ℚ`; for the
  magnitudes reachable here (hundreds of tasks) the binary floating-point
  results of `completed / total * 100` and its threshold comparisons agree
  with the exact rational values.
* The source file is stored with mojibake text (e.g. the bytes of the
  "memo" emoji were double-decoded into `ğŸ“`); the embedded string
  literals reproduce the file's actual characters exactly, via `\u`
  escapes for the non-ASCII ones.
-/

namespace TaskMgr

/-- A task record, exactly the dictionary built by `TaskManager.add_task`:
`{"id": ..., "title": ..., "priority": ..., "completed": ..., "created_at": ...}`. -/
structure Task where
  id : Nat
  title : String
  priority : String
  completed : Bool
  created_at : String
deriving DecidableEq, Repr

/-- Python `str.lower()`, restricted to its ASCII action (the only
characters the program compares against are ASCII): lowercase each
character. -/
def pyLower (s : String) : String :=
  ⟨s.data.map Char.toLower⟩

/-- `TaskManager._load_tasks`: read the storage; a missing file
(`FileNotFoundError`) yields the empty list. -/
def load_tasks (storage : Option (List Task)) : List Task :=
  match storage with
  | some ts => ts
  | none => []

/-- The state of a `TaskManager` instance: its in-memory `self.tasks` list
plus the durable storage it reads and writes. -/
structure TaskManager where
  tasks : List Task
  storage : Option (List Task)
deriving DecidableEq, Repr

/-- `TaskManager.__init__`: `self.tasks = self._load_tasks()`. -/
def TaskManager.init (storage : Option (List Task)) : TaskManager :=
  { tasks := load_tasks storage, storage := storage }

/-- `TaskManager._save_tasks`: overwrite the storage with the full
in-memory list. -/
def save_tasks (tm : TaskManager) : TaskManager :=
  { tm with storage := some tm.tasks }

/-- `TaskManager.add_task(title, priority)` with `now` the value of
`datetime.now().isoformat()`.  Returns the confirmation text and the
updated manager state. -/
def add_task (tm : TaskManager) (title : String) (priority : String)
    (now : String) : String × TaskManager :=
  let task : Task :=
    { id := tm.tasks.length + 1
      title := title
      priority := pyLower priority
      completed := false
      created_at := now }
  let tm2 := save_tasks { tm with tasks := tm.tasks ++ [task] }
  ("Task \x27" ++ title ++ "\x27 added with " ++ priority ++ " priority", tm2)

/-- `add_task` with the default argument `priority="medium"`. -/
def add_task_default (tm : TaskManager) (title : String) (now : String) :
    String × TaskManager :=
  add_task tm title "medium" now

/-- Lexicographic comparison of character lists by code point: the order
Python uses on `str`.  `lexLE a b` decides `a <= b`. -/
def lexLE : List Char → List Char → Bool
  | [], _ => true
  | _ :: _, [] => false
  | a :: as, b :: bs =>
    if a.toNat < b.toNat then true
    else if b.toNat < a.toNat then false
    else lexLE as bs

/-- String comparison by code point, as Python compares `str` values. -/
def strLE (a b : String) : Bool :=
  lexLE a.data b.data

/-- The sort key of `list_tasks`: `lambda x: (x["completed"], x["priority"])`
ordered lexicographically as a pair, with `False < True`.
`taskLE a b` decides `key a <= key b`. -/
def taskLE (a b : Task) : Bool :=
  (!a.completed && b.completed) ||
    (a.completed == b.completed && strLE a.priority b.priority)

/-- `sorted(self.tasks, key=lambda x: (x["completed"], x["priority"]))`:
Python's `sorted` is a stable sort, modelled by the stable `mergeSort`. -/
def sorted_tasks (ts : List Task) : List Task :=
  ts.mergeSort taskLE

/-- The priority-to-glyph table of `list_tasks`, with its `.get` default. -/
def priority_emoji (p : String) : String :=
  if p == "high" then "ğŸ”´"
  else if p == "medium" then "ğŸŸ¡"
  else if p == "low" then "ğŸŸ¢"
  else "âšª"

/-- One output line of `list_tasks` for one task. -/
def task_line (t : Task) : String :=
  let status := if t.completed then "âœ…" else "â³"
  status ++ " " ++ priority_emoji (pyLower t.priority) ++ " Task " ++
    toString t.id ++ ": " ++ t.title

/-- `TaskManager.list_tasks()`. -/
def list_tasks (tm : TaskManager) : String :=
  if tm.tasks.isEmpty then "ğŸ“ No tasks found!"
  else String.intercalate "\n" ((sorted_tasks tm.tasks).map task_line)

/-- The scan of `complete_task`: walk the list in order; at the first task
whose `id` matches, set its `completed` flag and return the success text;
`none` when no task matches. -/
def complete_go : List Task → Nat → Option (String × List Task)
  | [], _ => none
  | t :: ts, tid =>
    if t.id = tid then
      some ("Task \x27" ++ t.title ++ "\x27 marked as completed! ğŸ‰",
        { t with completed := true } :: ts)
    else
      match complete_go ts tid with
      | some (msg, rest) => some (msg, t :: rest)
      | none => none

/-- `TaskManager.complete_task(task_id)`. -/
def complete_task (tm : TaskManager) (tid : Nat) : String × TaskManager :=
  match complete_go tm.tasks tid with
  | some (msg, ts2) => (msg, save_tasks { tm with tasks := ts2 })
  | none => ("Task with ID " ++ toString tid ++ " not found! âŒ", tm)

/-- `sum(1 for task in self.tasks if task["completed"])`. -/
def completed_count (ts : List Task) : Nat :=
  ts.countP (fun t => t.completed)

/-- `completion_rate = (completed_tasks / total_tasks) * 100`, as an exact
rational. -/
def completion_rate (ts : List Task) : ℚ :=
  ((completed_count ts : ℚ) / (ts.length : ℚ)) * 100

/-- The encouragement ladder of `get_stats`, evaluated top to bottom,
first match wins. -/
def stats_message (rate : ℚ) : String :=
  if rate = 100 then
    "ğŸ‰ Perfect score! You\x27re on fire! ğŸ”¥"
  else if 75 ≤ rate then
    "ğŸŒŸ Great progress! Keep up the momentum! ğŸ’ª"
  else if 50 ≤ rate then
    "ğŸ‘ Halfway there! You\x27re doing great! ğŸŒˆ"
  else
    "ğŸŒ± Every journey starts with a single step! Keep going! ğŸ’«"

/-- Round a nonnegative rational to an integer, ties to even: the rounding
of CPython's `format(x, ".1f")` at the scale of one decimal digit, for the
values where the binary float is exact. -/
def round_half_even (q : ℚ) : ℤ :=
  let f := Int.floor q
  if q - f < 1 / 2 then f
  else if 1 / 2 < q - f then f + 1
  else if f % 2 = 0 then f else f + 1

/-- `f"{completion_rate:.1f}"` for the nonnegative rates produced here. -/
def format1 (q : ℚ) : String :=
  let n := (round_half_even (q * 10)).toNat
  toString (n / 10) ++ "." ++ toString (n % 10)

/-- `TaskManager.get_stats()`. -/
def get_stats (tm : TaskManager) : String :=
  let total_tasks := tm.tasks.length
  let completed_tasks := completed_count tm.tasks
  if total_tasks = 0 then
    "ğŸ“Š No tasks yet! Time to get started! ğŸš€"
  else
    let rate := completion_rate tm.tasks
    let message := stats_message rate
    "\nğŸ“Š Task Statistics:\n------------------\nTotal Tasks: " ++
      toString total_tasks ++ "\nCompleted: " ++ toString completed_tasks ++
      "\nCompletion Rate: " ++ format1 rate ++ "%\n\n" ++ message ++ "\n"

/-- Fold `add_task` over a list of `(title, priority, now)` inputs. -/
def add_all (tm : TaskManager) : List (String × String × String) → TaskManager
  | [] => tm
  | (t, p, n) :: rest => add_all (add_task tm t p n).2 rest

/-- A store holding a single incomplete task with ID 1, as after one add. -/
def one_task : Task :=
  { id := 1, title := "Buy milk", priority := "high", completed := false,
    created_at := "2024-01-01T00:00:00" }

/-- The manager state holding exactly `one_task`. -/
def one_tm : TaskManager :=
  { tasks := [one_task], storage := some [one_task] }

/-- Three incomplete tasks whose priorities are medium, high, low, in
insertion order. -/
def demo_tasks : List Task :=
  [{ id := 1, title := "t1", priority := "medium", completed := false,
     created_at := "" },
   { id := 2, title := "t2", priority := "high", completed := false,
     created_at := "" },
   { id := 3, title := "t3", priority := "low", completed := false,
     created_at := "" }]

/-- The manager state holding `demo_tasks`. -/
def demo_tm : TaskManager :=
  { tasks := demo_tasks, storage := some demo_tasks }

/-- Four tasks of which exactly the first two are completed. -/
def four_two : TaskManager :=
  { tasks :=
      [{ id := 1, title := "a", priority := "medium", completed := true,
         created_at := "" },
       { id := 2, title := "b", priority := "medium", completed := true,
         created_at := "" },
       { id := 3, title := "c", priority := "medium", completed := false,
         created_at := "" },
       { id := 4, title := "d", priority := "medium", completed := false,
         created_at := "" }],
    storage := none }

/-- When no task's ID matches, the scan of `complete_task` finds nothing. -/
theorem complete_go_none (ts : List Task) (tid : Nat)
    (h : ∀ t ∈ ts, t.id ≠ tid) : complete_go ts tid = none := by
  induction ts with
  | nil => rfl
  | cons t ts ih =>
    simp only [complete_go]
    rw [if_neg (h t (by simp))]
    rw [ih (fun x hx => h x (by simp [hx]))]

/-- The scan of `complete_task` marks exactly the first task whose ID
matches and leaves the rest of the list untouched. -/
theorem complete_go_split (pre : List Task) (t0 : Task) (post : List Task)
    (tid : Nat) (hpre : ∀ t ∈ pre, t.id ≠ tid) (ht : t0.id = tid) :
    complete_go (pre ++ t0 :: post) tid =
      some ("Task \x27" ++ t0.title ++ "\x27 marked as completed! ğŸ‰",
        pre ++ { t0 with completed := true } :: post) := by
  induction pre with
  | nil => simp [complete_go, ht]
  | cons p pre ih =>
    have hp : p.id ≠ tid := hpre p (by simp)
    have h2 := ih (fun x hx => hpre x (by simp [hx]))
    simp only [List.cons_append, complete_go]
    rw [if_neg hp]
    simp only [List.append_eq] at h2 ⊢
    rw [h2]

/-- IDs produced by a run of adds: the old IDs followed by the next
consecutive integers. -/
theorem add_all_ids (inputs : List (String × String × String)) :
    ∀ tm : TaskManager,
      (add_all tm inputs).tasks.map Task.id =
        tm.tasks.map Task.id ++
          List.range' (tm.tasks.length + 1) inputs.length := by
  induction inputs with
  | nil => intro tm; simp [add_all]
  | cons i rest ih =>
    intro tm
    obtain ⟨t, p, n⟩ := i
    have hstep : (add_task tm t p n).2.tasks =
        tm.tasks ++ [⟨tm.tasks.length + 1, t, pyLower p, false, n⟩] := rfl
    simp only [add_all]
    rw [ih, hstep]
    simp [List.range'_succ]

/-- `complete_task` on a manager whose list splits around the first task
with the requested ID: the full result, as one equation. -/
theorem complete_task_eq_of_split (tm : TaskManager) (pre : List Task)
    (t0 : Task) (post : List Task) (tid : Nat)
    (htm : tm.tasks = pre ++ t0 :: post)
    (hpre : ∀ t ∈ pre, t.id ≠ tid) (ht : t0.id = tid) :
    complete_task tm tid =
      ("Task \x27" ++ t0.title ++ "\x27 marked as completed! ğŸ‰",
        ⟨pre ++ { t0 with completed := true } :: post,
         some (pre ++ { t0 with completed := true } :: post)⟩) := by
  rw [complete_task, htm, complete_go_split pre t0 post tid hpre ht]
  rfl

/-- C3: completing a task ID that no task in the collection carries
returns the not-found text embedding that ID and leaves the manager state
(in-memory list and storage alike) unchanged; the operation is a total
function, so no exception is raised. -/
theorem complete_task_missing (tm : TaskManager) (tid : Nat)
    (h : ∀ t ∈ tm.tasks, t.id ≠ tid) :
    complete_task tm tid =
      ("Task with ID " ++ toString tid ++ " not found! âŒ", tm) := by
  rw [complete_task, complete_go_none tm.tasks tid h]

/-- Concrete instance of `complete_task_missing`: ID 999 against a store
holding only task 1. -/
theorem complete_task_missing_witness :
    (∀ t ∈ one_tm.tasks, t.id ≠ 999) ∧
    complete_task one_tm 999 =
      ("Task with ID " ++ toString 999 ++ " not found! âŒ", one_tm) :=
  ⟨by decide, complete_task_missing one_tm 999 (by decide)⟩

/-- C6: completing an existing ID marks exactly the first task carrying
that ID as completed, persists the new list, and returns the success text
embedding that task's title; every other task is untouched and the
completed task keeps its `id`, `title`, `priority` and `created_at`. -/
theorem complete_task_found (tm : TaskManager) (pre : List Task) (t0 : Task)
    (post : List Task) (tid : Nat) (htm : tm.tasks = pre ++ t0 :: post)
    (hpre : ∀ t ∈ pre, t.id ≠ tid) (ht : t0.id = tid) :
    complete_task tm tid =
      ("Task \x27" ++ t0.title ++ "\x27 marked as completed! ğŸ‰",
        ⟨pre ++ { t0 with completed := true } :: post,
         some (pre ++ { t0 with completed := true } :: post)⟩) ∧
    Task.id { t0 with completed := true } = t0.id ∧
    Task.title { t0 with completed := true } = t0.title ∧
    Task.priority { t0 with completed := true } = t0.priority ∧
    Task.created_at { t0 with completed := true } = t0.created_at :=
  ⟨complete_task_eq_of_split tm pre t0 post tid htm hpre ht,
   rfl, rfl, rfl, rfl⟩

/-- Concrete instance of `complete_task_found`: completing ID 1 in the
one-task store. -/
theorem complete_task_found_witness :
    one_tm.tasks = [] ++ one_task :: [] ∧
    (∀ t ∈ ([] : List Task), t.id ≠ 1) ∧
    one_task.id = 1 ∧
    (complete_task one_tm 1 =
      ("Task \x27" ++ one_task.title ++ "\x27 marked as completed! ğŸ‰",
        ⟨[] ++ { one_task with completed := true } :: [],
         some ([] ++ { one_task with completed := true } :: [])⟩) ∧
     Task.id { one_task with completed := true } = one_task.id ∧
     Task.title { one_task with completed := true } = one_task.title ∧
     Task.priority { one_task with completed := true } = one_task.priority ∧
     Task.created_at { one_task with completed := true } = one_task.created_at) :=
  ⟨rfl, by simp, rfl, complete_task_found one_tm [] one_task [] 1 rfl (by simp) rfl⟩

/-- C7: completing the same existing ID a second time still returns the
success text and leaves the state exactly as after the first call. -/
theorem complete_task_idem (tm : TaskManager) (pre : List Task) (t0 : Task)
    (post : List Task) (tid : Nat) (htm : tm.tasks = pre ++ t0 :: post)
    (hpre : ∀ t ∈ pre, t.id ≠ tid) (ht : t0.id = tid) :
    complete_task (complete_task tm tid).2 tid =
      ((complete_task tm tid).1, (complete_task tm tid).2) := by
  have h1 := complete_task_eq_of_split tm pre t0 post tid htm hpre ht
  have h2 := complete_task_eq_of_split
    (⟨pre ++ { t0 with completed := true } :: post,
      some (pre ++ { t0 with completed := true } :: post)⟩ : TaskManager)
    pre { t0 with completed := true } post tid rfl hpre ht
  rw [h1, h2]

/-- Concrete instance of `complete_task_idem` on the one-task store. -/
theorem complete_task_idem_witness :
    one_tm.tasks = [] ++ one_task :: [] ∧
    (∀ t ∈ ([] : List Task), t.id ≠ 1) ∧
    one_task.id = 1 ∧
    complete_task (complete_task one_tm 1).2 1 =
      ((complete_task one_tm 1).1, (complete_task one_tm 1).2) :=
  ⟨rfl, by simp, rfl, complete_task_idem one_tm [] one_task [] 1 rfl (by simp) rfl⟩

/-- C4: starting from an empty store, a sequence of adds receives the IDs
`1, 2, ..., N` in insertion order, whatever the titles and priorities;
and each single add assigns ID `(current task count) + 1`. -/
theorem add_task_ids :
    (∀ inputs : List (String × String × String),
      (add_all (TaskManager.init none) inputs).tasks.map Task.id =
        List.range' 1 inputs.length) ∧
    ∀ (tm : TaskManager) (title priority now : String),
      (add_task tm title priority now).2.tasks.map Task.id =
        tm.tasks.map Task.id ++ [tm.tasks.length + 1] := by
  constructor
  · intro inputs
    simpa using add_all_ids inputs (TaskManager.init none)
  · intro tm title priority now
    show (tm.tasks ++
      [(⟨tm.tasks.length + 1, title, pyLower priority, false, now⟩ : Task)]).map
        Task.id = _
    simp

/-- C5: `add_task` appends a task whose stored priority is the lowercased
input, whatever string was supplied (no validation); the default priority
is `"medium"`; and the confirmation text embeds the title and the
originally supplied, non-lowercased priority. -/
theorem add_task_spec (tm : TaskManager) (title priority now : String) :
    (add_task tm title priority now).2.tasks =
      tm.tasks ++ [⟨tm.tasks.length + 1, title, pyLower priority, false, now⟩] ∧
    (add_task tm title priority now).2.storage =
      some ((add_task tm title priority now).2.tasks) ∧
    (add_task tm title priority now).1 =
      "Task \x27" ++ title ++ "\x27 added with " ++ priority ++ " priority" ∧
    add_task_default tm title now = add_task tm title "medium" now ∧
    (add_task_default tm title now).2.tasks =
      tm.tasks ++ [⟨tm.tasks.length + 1, title, "medium", false, now⟩] ∧
    (add_task_default tm title now).1 =
      "Task \x27" ++ title ++ "\x27 added with " ++ "medium" ++ " priority" :=
  ⟨rfl, rfl, rfl, rfl, rfl, rfl⟩

/-- C10: `add_task` accepts the empty title with no validation: it appends
a task whose title is `""`, persists it, and returns the usual
confirmation text, exactly as for non-empty titles. -/
theorem add_task_empty_title (tm : TaskManager) (priority now : String) :
    (add_task tm "" priority now).2.tasks =
      tm.tasks ++ [⟨tm.tasks.length + 1, "", pyLower priority, false, now⟩] ∧
    (add_task tm "" priority now).2.storage =
      some (tm.tasks ++
        [⟨tm.tasks.length + 1, "", pyLower priority, false, now⟩]) ∧
    (add_task tm "" priority now).1 =
      "Task \x27" ++ "" ++ "\x27 added with " ++ priority ++ " priority" :=
  ⟨rfl, rfl, rfl⟩

/-- C8: persistence round-trip. After any `add_task`, the storage holds
exactly the new in-memory list, so a fresh manager built over that storage
loads the same collection; concretely, after `add("Buy milk", "high")` on
an empty store, a fresh instance lists the task as incomplete (`â³`),
high-priority (`ğŸ”´`), ID 1, titled `Buy milk`. -/
theorem persistence_round_trip :
    (∀ (tm : TaskManager) (title priority now : String),
      load_tasks (add_task tm title priority now).2.storage =
        (add_task tm title priority now).2.tasks) ∧
    (∀ (tm : TaskManager) (now : String),
      (TaskManager.init (add_task tm "Buy milk" "high" now).2.storage).tasks =
        tm.tasks ++ [⟨tm.tasks.length + 1, "Buy milk", "high", false, now⟩]) ∧
    ∀ now : String,
      list_tasks (TaskManager.init
          (add_task (TaskManager.init none) "Buy milk" "high" now).2.storage) =
        "â³ ğŸ”´ Task 1: Buy milk" := by
  refine ⟨fun tm title priority now => rfl, fun tm now => rfl, fun now => ?_⟩
  simp [list_tasks, TaskManager.init, load_tasks, add_task, save_tasks,
    sorted_tasks, List.mergeSort, task_line, priority_emoji, pyLower]
  decide

/-- C9: a missing storage file at startup is an empty collection, not an
error: loading `none` is total and yields `[]`, and the freshly built
manager holds zero tasks. -/
theorem startup_missing_file :
    load_tasks none = ([] : List Task) ∧
    TaskManager.init none = ⟨[], none⟩ ∧
    (TaskManager.init none).tasks.length = 0 :=
  ⟨rfl, rfl, rfl⟩

/-- `lexLE` is total. -/
theorem lexLE_total : ∀ as bs : List Char, (lexLE as bs || lexLE bs as) = true
  | [], [] => rfl
  | [], _ :: _ => rfl
  | _ :: _, [] => rfl
  | a :: as, b :: bs => by
    simp only [lexLE]
    rcases Nat.lt_trichotomy a.toNat b.toNat with h | h | h
    · rw [if_pos h]
      simp
    · rw [if_neg (by omega), if_neg (by omega), if_neg (by omega),
        if_neg (by omega)]
      exact lexLE_total as bs
    · rw [if_neg (by omega), if_pos h, if_pos h]
      simp

/-- `lexLE` is transitive. -/
theorem lexLE_trans : ∀ as bs cs : List Char,
    lexLE as bs = true → lexLE bs cs = true → lexLE as cs = true
  | [], _, _ => by intro _ _; rfl
  | _ :: _, [], _ => by intro h1 _; simp [lexLE] at h1
  | _ :: _, _ :: _, [] => by intro _ h2; simp [lexLE] at h2
  | a :: as, b :: bs, c :: cs => by
    intro h1 h2
    simp only [lexLE] at h1 h2 ⊢
    rcases Nat.lt_trichotomy a.toNat b.toNat with hab | hab | hab
    · rcases Nat.lt_trichotomy b.toNat c.toNat with hbc | hbc | hbc
      · rw [if_pos (by omega)]
      · rw [if_pos (by omega)]
      · rw [if_neg (by omega), if_pos hbc] at h2
        simp at h2
    · rw [if_neg (by omega), if_neg (by omega)] at h1
      rcases Nat.lt_trichotomy b.toNat c.toNat with hbc | hbc | hbc
      · rw [if_pos (by omega)]
      · rw [if_neg (by omega), if_neg (by omega)] at h2
        rw [if_neg (by omega), if_neg (by omega)]
        exact lexLE_trans as bs cs h1 h2
      · rw [if_neg (by omega), if_pos hbc] at h2
        simp at h2
    · rw [if_neg (by omega), if_pos hab] at h1
      simp at h1

/-- `strLE` is total. -/
theorem strLE_total (a b : String) : (strLE a b || strLE b a) = true :=
  lexLE_total a.data b.data

/-- `strLE` is transitive. -/
theorem strLE_trans (a b c : String) :
    strLE a b = true → strLE b c = true → strLE a c = true :=
  lexLE_trans a.data b.data c.data

/-- The composite sort key comparison is total. -/
theorem taskLE_total (a b : Task) : (taskLE a b || taskLE b a) = true := by
  have hstr := strLE_total a.priority b.priority
  rw [Bool.or_eq_true] at hstr ⊢
  rcases hstr with hs | hs <;>
    cases ha : a.completed <;> cases hb : b.completed <;>
      simp [taskLE, ha, hb, hs]

/-- The composite sort key comparison is transitive. -/
theorem taskLE_trans (a b c : Task) :
    taskLE a b = true → taskLE b c = true → taskLE a c = true := by
  intro h1 h2
  simp only [taskLE, Bool.or_eq_true, Bool.and_eq_true, Bool.not_eq_true',
    beq_iff_eq] at h1 h2 ⊢
  rcases h1 with ⟨ha, hb⟩ | ⟨hab, s1⟩
  · rcases h2 with ⟨hb2, hc⟩ | ⟨hbc, s2⟩
    · exact Or.inl ⟨ha, hc⟩
    · exact Or.inl ⟨ha, hbc.symm.trans hb |>.symm ▸ rfl⟩
  · rcases h2 with ⟨hb2, hc⟩ | ⟨hbc, s2⟩
    · exact Or.inl ⟨hab.trans hb2, hc⟩
    · exact Or.inr ⟨hab.trans hbc, strLE_trans _ _ _ s1 s2⟩

/-- `taskLE` spelled out as a proposition: incomplete-before-completed
first, then priority text in lexicographic order. -/
theorem taskLE_iff (a b : Task) : taskLE a b = true ↔
    ((a.completed = false ∧ b.completed = true) ∨
     (a.completed = b.completed ∧ strLE a.priority b.priority = true)) := by
  cases ha : a.completed <;> cases hb : b.completed <;> simp [taskLE, ha, hb]

/-- C1: `list_tasks` on a non-empty collection prints one line per task in
the order of the stable sort by the composite key (completed flag,
priority text): the output order is a permutation of the store in which
every incomplete task precedes every completed one and, within equal
completion status, priority texts are in lexicographic order — an order
that puts `"high"` before `"low"` before `"medium"` (not severity order),
as the concrete three-priority store shows. -/
theorem list_tasks_sorted (tm : TaskManager) (h : tm.tasks ≠ []) :
    list_tasks tm =
      String.intercalate "\n" ((sorted_tasks tm.tasks).map task_line) ∧
    (sorted_tasks tm.tasks).Perm tm.tasks ∧
    (sorted_tasks tm.tasks).Pairwise (fun a b =>
      (a.completed = false ∧ b.completed = true) ∨
      (a.completed = b.completed ∧ strLE a.priority b.priority = true)) ∧
    strLE "high" "low" = true ∧
    strLE "low" "medium" = true ∧
    strLE "medium" "high" = false ∧
    (sorted_tasks demo_tasks).map Task.priority = ["high", "low", "medium"] := by
  obtain ⟨a, l, hal⟩ := List.exists_cons_of_ne_nil h
  refine ⟨?_, List.mergeSort_perm tm.tasks taskLE, ?_, by decide, by decide,
    by decide, ?_⟩
  · rw [list_tasks, hal]
    rfl
  · have hs := List.sorted_mergeSort taskLE_trans taskLE_total tm.tasks
    exact hs.imp (fun hab => (taskLE_iff _ _).mp hab)
  · simp [sorted_tasks, demo_tasks, List.mergeSort, List.merge, taskLE,
      strLE, lexLE]

/-- Concrete instance of `list_tasks_sorted` at the three-task store. -/
theorem list_tasks_sorted_witness :
    demo_tm.tasks ≠ [] ∧
    (list_tasks demo_tm =
      String.intercalate "\n" ((sorted_tasks demo_tm.tasks).map task_line) ∧
     (sorted_tasks demo_tm.tasks).Perm demo_tm.tasks ∧
     (sorted_tasks demo_tm.tasks).Pairwise (fun a b =>
       (a.completed = false ∧ b.completed = true) ∨
       (a.completed = b.completed ∧ strLE a.priority b.priority = true)) ∧
     strLE "high" "low" = true ∧
     strLE "low" "medium" = true ∧
     strLE "medium" "high" = false ∧
     (sorted_tasks demo_tasks).map Task.priority = ["high", "low", "medium"]) :=
  ⟨by decide, list_tasks_sorted demo_tm (by decide)⟩

/-- Rendering the rate 50 to one decimal place gives `"50.0"`. -/
theorem format1_50 : format1 50 = "50.0" := by
  have h2 : round_half_even ((50 : ℚ) * 10) = 500 := by
    have h1 : (50 : ℚ) * 10 = 500 := by norm_num
    rw [round_half_even, h1]
    norm_num
  simp only [format1, h2]
  decide

/-- At rate exactly 50 the ladder selects the third (tier C) message:
`50 >= 50` fires before the unreached `>= 75` branch. -/
theorem stats_message_50 :
    stats_message 50 = "ğŸ‘ Halfway there! You\x27re doing great! ğŸŒˆ" := by
  rw [stats_message, if_neg (by norm_num), if_neg (by norm_num),
    if_pos (by norm_num)]

/-- The 4-task, 2-completed store has completion rate 50. -/
theorem completion_rate_four_two : completion_rate four_two.tasks = 50 := by
  have h2 : completed_count four_two.tasks = 2 := rfl
  have h4 : four_two.tasks.length = 4 := rfl
  rw [completion_rate, h2, h4]
  norm_num

/-- C2: `get_stats` returns the fixed zero-task message on an empty
collection; otherwise it returns the statistics block built from
`completion_rate = completed / total * 100` rendered to one decimal place,
with the encouragement message selected by the top-to-bottom first-match
ladder `= 100`, `>= 75`, `>= 50`, otherwise; with 4 tasks of which 2 are
completed the rate is 50 and the tier-C message is selected. -/
theorem get_stats_spec (tm : TaskManager) (h : tm.tasks ≠ []) :
    get_stats tm =
      "\nğŸ“Š Task Statistics:\n------------------\nTotal Tasks: " ++
        toString tm.tasks.length ++ "\nCompleted: " ++
        toString (completed_count tm.tasks) ++ "\nCompletion Rate: " ++
        format1 (completion_rate tm.tasks) ++ "%\n\n" ++
        stats_message (completion_rate tm.tasks) ++ "\n" ∧
    completion_rate tm.tasks =
      (completed_count tm.tasks : ℚ) / (tm.tasks.length : ℚ) * 100 ∧
    (completion_rate tm.tasks = 100 →
      stats_message (completion_rate tm.tasks) =
        "ğŸ‰ Perfect score! You\x27re on fire! ğŸ”¥") ∧
    (completion_rate tm.tasks ≠ 100 → 75 ≤ completion_rate tm.tasks →
      stats_message (completion_rate tm.tasks) =
        "ğŸŒŸ Great progress! Keep up the momentum! ğŸ’ª") ∧
    (completion_rate tm.tasks < 75 → 50 ≤ completion_rate tm.tasks →
      stats_message (completion_rate tm.tasks) =
        "ğŸ‘ Halfway there! You\x27re doing great! ğŸŒˆ") ∧
    (completion_rate tm.tasks < 50 →
      stats_message (completion_rate tm.tasks) =
        "ğŸŒ± Every journey starts with a single step! Keep going! ğŸ’«") ∧
    get_stats ⟨[], none⟩ = "ğŸ“Š No tasks yet! Time to get started! ğŸš€" ∧
    completion_rate four_two.tasks = 50 ∧
    format1 (completion_rate four_two.tasks) = "50.0" ∧
    stats_message (completion_rate four_two.tasks) =
      "ğŸ‘ Halfway there! You\x27re doing great! ğŸŒˆ" ∧
    get_stats four_two =
      "\nğŸ“Š Task Statistics:\n------------------\nTotal Tasks: " ++
        toString (4 : Nat) ++ "\nCompleted: " ++ toString (2 : Nat) ++
        "\nCompletion Rate: " ++ "50.0" ++ "%\n\n" ++
        "ğŸ‘ Halfway there! You\x27re doing great! ğŸŒˆ" ++ "\n" := by
  have h0 : ¬ tm.tasks.length = 0 := by
    intro h0
    exact h (List.length_eq_zero.mp h0)
  refine ⟨?_, rfl, ?_, ?_, ?_, ?_, rfl, completion_rate_four_two, ?_, ?_, ?_⟩
  · simp only [get_stats]
    rw [if_neg h0]
  · intro h100
    rw [stats_message, if_pos h100]
  · intro hne h75
    rw [stats_message, if_neg hne, if_pos h75]
  · intro h75 h50
    have hne : ¬ completion_rate tm.tasks = 100 := by
      intro he
      rw [he] at h75
      norm_num at h75
    rw [stats_message, if_neg hne, if_neg (not_le.mpr h75), if_pos h50]
  · intro h50
    have hne : ¬ completion_rate tm.tasks = 100 := by
      intro he
      rw [he] at h50
      norm_num at h50
    have h75 : ¬ (75 : ℚ) ≤ completion_rate tm.tasks := by
      intro hle
      exact absurd (lt_of_le_of_lt hle h50) (by norm_num)
    rw [stats_message, if_neg hne, if_neg h75, if_neg (not_le.mpr h50)]
  · rw [completion_rate_four_two]
    exact format1_50
  · rw [completion_rate_four_two]
    exact stats_message_50
  · have h4 : four_two.tasks.length = 4 := rfl
    have h2c : completed_count four_two.tasks = 2 := rfl
    simp only [get_stats, h4, h2c, completion_rate_four_two, format1_50,
      stats_message_50]
    rw [if_neg (by norm_num)]

/-- Concrete instance of `get_stats_spec` at the 4-task, 2-completed
store. -/
theorem get_stats_spec_witness :
    four_two.tasks ≠ [] ∧
    (get_stats four_two =
      "\nğŸ“Š Task Statistics:\n------------------\nTotal Tasks: " ++
        toString four_two.tasks.length ++ "\nCompleted: " ++
        toString (completed_count four_two.tasks) ++ "\nCompletion Rate: " ++
        format1 (completion_rate four_two.tasks) ++ "%\n\n" ++
        stats_message (completion_rate four_two.tasks) ++ "\n" ∧
     completion_rate four_two.tasks =
       (completed_count four_two.tasks : ℚ) / (four_two.tasks.length : ℚ) * 100 ∧
     (completion_rate four_two.tasks = 100 →
       stats_message (completion_rate four_two.tasks) =
         "ğŸ‰ Perfect score! You\x27re on fire! ğŸ”¥") ∧
     (completion_rate four_two.tasks ≠ 100 → 75 ≤ completion_rate four_two.tasks →
       stats_message (completion_rate four_two.tasks) =
         "ğŸŒŸ Great progress! Keep up the momentum! ğŸ’ª") ∧
     (completion_rate four_two.tasks < 75 → 50 ≤ completion_rate four_two.tasks →
       stats_message (completion_rate four_two.tasks) =
         "ğŸ‘ Halfway there! You\x27re doing great! ğŸŒˆ") ∧
     (completion_rate four_two.tasks < 50 →
       stats_message (completion_rate four_two.tasks) =
         "ğŸŒ± Every journey starts with a single step! Keep going! ğŸ’«") ∧
     get_stats ⟨[], none⟩ = "ğŸ“Š No tasks yet! Time to get started! ğŸš€" ∧
     completion_rate four_two.tasks = 50 ∧
     format1 (completion_rate four_two.tasks) = "50.0" ∧
     stats_message (completion_rate four_two.tasks) =
       "ğŸ‘ Halfway there! You\x27re doing great! ğŸŒˆ" ∧
     get_stats four_two =
       "\nğŸ“Š Task Statistics:\n------------------\nTotal Tasks: " ++
         toString (4 : Nat) ++ "\nCompleted: " ++ toString (2 : Nat) ++
         "\nCompletion Rate: " ++ "50.0" ++ "%\n\n" ++
         "ğŸ‘ Halfway there! You\x27re doing great! ğŸŒˆ" ++ "\n") :=
  ⟨by decide, get_stats_spec four_two (by decide)⟩

end TaskMgr
